import Mathlib

/-!
Shallow embedding of `src/main.py` (a Riot match-history reporting script).

The program fetches a player's recent ranked matches and projects each raw
match document into a flat per-match statistics record.  The embedding below
translates the pieces the specification talks about:

* a JSON value model with Python-style subscription (`d[k]`, raising
  `KeyError`/`TypeError`), `.get(k, default)` (raising `AttributeError` on a
  non-dict) and Python truthiness;
* `RiotUser.create` (identity resolution, `main.py` lines 18-32);
* `get_match_ids` (match listing, lines 34-40);
* `fetch_single_match` / `get_match_data` (fan-out fetch with the failures
  filtered, lines 42-65), with the network modelled as an oracle from match
  id to either a parsed JSON body or a fetch failure — the per-id outcome of
  `client.get` + `raise_for_status` + `.json()`;
* `parse_match_data` (projection, lines 67-95).

Fallible Python code is embedded as `Except PyErr`; an uncaught Python
exception is `.error e`.  JSON numbers are rationals; Python's 2-decimal
`round` (banker's rounding, exact over the rationals) is `round2`.
The `asyncio` semaphore/gather structure of `get_match_data` is embedded
separately as a small-step transition system (`GatherStep`) whose states
record the phase of each per-match task and whether `gather` has returned.
-/

/-- Uncaught Python exception kinds surfaced by the embedded code. -/
inductive PyErr where
  | keyError (key : String)
  | typeError
  | attributeError
  | httpStatusError (status : Nat) (reason : String)
deriving DecidableEq

/-- Parsed JSON values (the shape returned by `response.json()`). -/
inductive Json where
  | null
  | bool (b : Bool)
  | num (q : ℚ)
  | str (s : String)
  | arr (elems : List Json)
  | obj (fields : List (String × Json))

/-- Python subscription `j[k]` on a parsed JSON value: `KeyError` when the
key is absent from a dict, `TypeError` when `j` is not a dict. -/
def Json.item (j : Json) (k : String) : Except PyErr Json :=
  match j with
  | .obj fields =>
    match fields.lookup k with
    | some v => .ok v
    | none => .error (.keyError k)
  | _ => .error .typeError

/-- Python `j.get(k, default)`: the value when present, the default when the
key is absent, `AttributeError` when `j` is not a dict. -/
def Json.get (j : Json) (k : String) (default : Json) : Except PyErr Json :=
  match j with
  | .obj fields => .ok ((fields.lookup k).getD default)
  | _ => .error .attributeError

/-- Iterating a JSON value as a Python list (`TypeError` otherwise). -/
def Json.asArr (j : Json) : Except PyErr (List Json) :=
  match j with
  | .arr elems => .ok elems
  | _ => .error .typeError

/-- Reading a JSON value as a Python number (`TypeError` otherwise). -/
def Json.asNum (j : Json) : Except PyErr ℚ :=
  match j with
  | .num q => .ok q
  | _ => .error .typeError

/-- Python truthiness of a parsed JSON value (`if m:` in the source). -/
def Json.truthy : Json → Bool
  | .null => false
  | .bool b => b
  | .num q => q ≠ 0
  | .str s => s ≠ ""
  | .arr elems => !elems.isEmpty
  | .obj fields => !fields.isEmpty

/-- Python `j == s` for a target string `s` (false on any non-string). -/
def Json.eqStr (j : Json) (s : String) : Bool :=
  match j with
  | .str t => t == s
  | _ => false

/-- Python `round(q)` to an integer: round-half-to-even. -/
def pyRound (q : ℚ) : ℤ :=
  if q - ⌊q⌋ < 1 / 2 then ⌊q⌋
  else if q - ⌊q⌋ > 1 / 2 then ⌊q⌋ + 1
  else if ⌊q⌋ % 2 = 0 then ⌊q⌋ else ⌊q⌋ + 1

/-- Python `round(q, 2)` over exact rationals. -/
def round2 (q : ℚ) : ℚ := (pyRound (q * 100) : ℚ) / 100

/-- Lines 78-79 of the source:
`deaths = player["deaths"] if player["deaths"] > 0 else 1` followed by
`kda = round((player["kills"] + player["assists"]) / deaths, 2)`. -/
def kdaCalc (kills deaths assists : ℚ) : ℚ :=
  let d := if deaths > 0 then deaths else 1
  round2 ((kills + assists) / d)

/-- One flat output record of `_parse_match_data` (the dict appended to
`rows`, lines 81-93 of the source). -/
structure Row where
  match_id : Json
  champion : Json
  win : Json
  kills : Json
  deaths : Json
  assists : Json
  kda : ℚ
  gold_per_min : Json
  damage : Json
  lane : Json

/-- Lines 71-72 of the source:
`info = data.get("info", {})`, `participants = info.get("participants", [])`,
iterated as a list. -/
def docParticipants (data : Json) : Except PyErr (List Json) := do
  let info ← data.get "info" (.obj [])
  let participantsJ ← info.get "participants" (.arr [])
  participantsJ.asArr

/-- Line 74 of the source:
`next((p for p in participants if p["puuid"] == self.puuid), None)`.
The generator is lazy: participants are examined in order only until the
first match, and `p["puuid"]` is evaluated for exactly the examined ones. -/
def findPlayer (puuid : String) : List Json → Except PyErr (Option Json)
  | [] => .ok none
  | p :: ps =>
    match p.item "puuid" with
    | .error e => .error e
    | .ok v => if v.eqStr puuid then .ok (some p) else findPlayer puuid ps

/-- Lines 77-93 of the source: the body of the `if player:` branch, building
one output record from the match document and the matched participant.
Field accesses appear in the source's evaluation order. -/
def buildRow (data player : Json) : Except PyErr Row :=
  match player.item "deaths" with
  | .error e => .error e
  | .ok deathsJ =>
  match deathsJ.asNum with
  | .error e => .error e
  | .ok deathsQ =>
  match player.item "kills" with
  | .error e => .error e
  | .ok killsJ =>
  match killsJ.asNum with
  | .error e => .error e
  | .ok killsQ =>
  match player.item "assists" with
  | .error e => .error e
  | .ok assistsJ =>
  match assistsJ.asNum with
  | .error e => .error e
  | .ok assistsQ =>
  match data.item "metadata" with
  | .error e => .error e
  | .ok metadata =>
  match metadata.item "matchId" with
  | .error e => .error e
  | .ok matchIdJ =>
  match player.item "championName" with
  | .error e => .error e
  | .ok championJ =>
  match player.item "win" with
  | .error e => .error e
  | .ok winJ =>
  match player.item "challenges" with
  | .error e => .error e
  | .ok challenges =>
  match challenges.get "goldPerMinute" (.num 0) with
  | .error e => .error e
  | .ok goldJ =>
  match player.item "totalDamageDealtToChampions" with
  | .error e => .error e
  | .ok damageJ =>
  match player.item "lane" with
  | .error e => .error e
  | .ok laneJ =>
    .ok { match_id := matchIdJ, champion := championJ, win := winJ,
          kills := killsJ, deaths := deathsJ, assists := assistsJ,
          kda := kdaCalc killsQ deathsQ assistsQ,
          gold_per_min := goldJ, damage := damageJ, lane := laneJ }

/-- One iteration of the `for data in match_results:` loop (lines 70-93):
locate the target participant; when absent contribute nothing; when present
build the record. -/
def parse_one_match (puuid : String) (data : Json) : Except PyErr (Option Row) :=
  match docParticipants data with
  | .error e => .error e
  | .ok participants =>
    match findPlayer puuid participants with
    | .error e => .error e
    | .ok none => .ok none
    | .ok (some player) =>
      match buildRow data player with
      | .error e => .error e
      | .ok r => .ok (some r)

/-- Embedding of `RiotUser._parse_match_data` (lines 67-95): fold the loop over the
documents, accumulating `rows` in order; an uncaught exception in an earlier
document aborts the loop before later documents are processed. -/
def parse_match_data (puuid : String) : List Json → Except PyErr (List Row)
  | [] => .ok []
  | d :: ds =>
    match parse_one_match puuid d with
    | .error e => .error e
    | .ok r? =>
      match parse_match_data puuid ds with
      | .error e => .error e
      | .ok rest =>
        .ok (match r? with
             | some r => r :: rest
             | none => rest)

/-- Failure modes of one match-detail request: a non-2xx status raised by
`raise_for_status`, a transport error from `client.get`, or a body that
`resp.json()` cannot decode. -/
inductive FetchErr where
  | httpStatus (code : Nat)
  | transport
  | malformedBody
deriving DecidableEq

/-- Embedding of `RiotUser._fetch_single_match` (lines 57-65): the whole request is inside
`try: ... except Exception: return None`, so every failure outcome of the
network oracle is caught and mapped to `None`; a success returns the parsed
body. -/
def fetch_single_match (net : String → Except FetchErr Json) (matchId : String) :
    Option Json :=
  match net matchId with
  | .ok body => some body
  | .error _ => none

/-- Python truthiness of an entry of `match_results` (`None` is falsy). -/
def pyTruthyOpt : Option Json → Bool
  | none => false
  | some j => j.truthy

/-- Line 51: `match_results = await asyncio.gather(*tasks)` — `gather`
returns the per-task results in submission order, one slot per input id. -/
def matchResults (net : String → Except FetchErr Json) (matchIds : List String) :
    List (Option Json) :=
  matchIds.map (fetch_single_match net)

/-- Line 54: `valid_results = [m for m in match_results if m]`. -/
def validResults (net : String → Except FetchErr Json) (matchIds : List String) :
    List Json :=
  ((matchResults net matchIds).filter pyTruthyOpt).filterMap id

/-- Embedding of `RiotUser.get_match_data` (lines 42-55), value-level semantics: gather
the per-match fetch outcomes in submission order, keep the truthy ones, and
project them.  `puuid` stands for `self.puuid`. -/
def get_match_data (puuid : String) (net : String → Except FetchErr Json)
    (matchIds : List String) : Except PyErr (List Row) :=
  parse_match_data puuid (validResults net matchIds)

/-- An HTTP response as the embedded client observes it: status code, reason
phrase, and the JSON-decoded body. -/
structure HttpResponse where
  status : Nat
  reason : String
  body : Json

/-- The call `response.raise_for_status()` in `httpx` raises exactly when the status
is not a 2xx success code. -/
def isSuccessStatus (status : Nat) : Bool :=
  200 ≤ status && status < 300

/-- The `RiotUser` instance built by the factory (lines 11-16). -/
structure RiotUser where
  name : String
  tag : String
  region : String
  puuid : Json

/-- Observable outcome of `RiotUser.create`: the returned value (`.ok none`
models the `return None` of the handler) and the error lines printed by the
`except httpx.HTTPStatusError` branch, each carrying the status and reason
of the exception. -/
structure CreateOutcome where
  value : Except PyErr (Option RiotUser)
  log : List (Nat × String)

/-- Embedding of `RiotUser.create` (lines 18-32): one GET, `raise_for_status`, then
`data["puuid"]`.  A non-2xx status raises `HTTPStatusError`, which the
handler catches, prints and converts into `return None`; a `KeyError` or
`TypeError` from `data["puuid"]` is not caught and propagates. -/
def RiotUser.create (name tag region : String) (resp : HttpResponse) :
    CreateOutcome :=
  if isSuccessStatus resp.status then
    match resp.body.item "puuid" with
    | .ok v => ⟨.ok (some ⟨name, tag, region, v⟩), []⟩
    | .error e => ⟨.error e, []⟩
  else
    ⟨.ok none, [(resp.status, resp.reason)]⟩

/-- Embedding of `RiotUser.get_match_ids` (lines 34-40): one GET parameterized by
`start`/`count`, `raise_for_status` (uncaught here, so a non-2xx status
propagates as an exception), then the decoded body is returned verbatim —
no truncation or reshaping of the upstream list. -/
def get_match_ids (user : RiotUser) (resp : HttpResponse) (start count : Nat) :
    Except PyErr Json :=
  if isSuccessStatus resp.status then .ok resp.body
  else .error (.httpStatusError resp.status resp.reason)

/-- Line 44: `sem = asyncio.Semaphore(10)`. -/
def semaphoreCapacity : Nat := 10

/-- Phase of one per-match fetch task: not yet admitted by the semaphore,
request in flight (semaphore unit held), or completed (unit released on
success or on the caught error). -/
inductive TaskPhase where
  | pending
  | inFlight
  | finished
deriving DecidableEq

/-- State of the `get_match_data` fan-out: the phase of each task (one per
input match id, in submission order) and whether `asyncio.gather` has
returned. -/
structure GatherState where
  phases : List TaskPhase
  returned : Bool
deriving DecidableEq

/-- Number of requests currently in flight. -/
def inFlightCount : List TaskPhase → Nat
  | [] => 0
  | .inFlight :: ps => inFlightCount ps + 1
  | _ :: ps => inFlightCount ps

/-- Small-step semantics of the fan-out (lines 44-51): `acquire` models
`async with sem` admitting a pending task only while fewer than `cap`
requests are in flight; `complete` models the response arriving or the error
being caught, releasing the unit; `ret` models `asyncio.gather` returning,
enabled only when every task has finished. -/
inductive GatherStep (cap : Nat) : GatherState → GatherState → Prop
  | acquire (s : GatherState) (i : Nat)
      (hi : s.phases.get? i = some .pending)
      (hcap : inFlightCount s.phases < cap)
      (hret : s.returned = false) :
      GatherStep cap s ⟨s.phases.set i .inFlight, false⟩
  | complete (s : GatherState) (i : Nat)
      (hi : s.phases.get? i = some .inFlight)
      (hret : s.returned = false) :
      GatherStep cap s ⟨s.phases.set i .finished, false⟩
  | ret (s : GatherState)
      (hall : ∀ p ∈ s.phases, p = TaskPhase.finished)
      (hret : s.returned = false) :
      GatherStep cap s ⟨s.phases, true⟩

/-- Initial fan-out state for `n` match ids: every task pending, `gather`
not yet returned. -/
def initState (n : Nat) : GatherState :=
  ⟨List.replicate n .pending, false⟩

/-- States reachable by the fan-out from the initial state. -/
def GatherReachable (cap n : Nat) (s : GatherState) : Prop :=
  Relation.ReflTransGen (GatherStep cap) (initState n) s

/-! ## Shared concrete values for witnesses and counterexamples -/

/-- A concrete resolved user for concrete instantiations. -/
def exUser : RiotUser := ⟨"Foo", "123", "europe", .str "P1"⟩

/-! ## Claim theorems -/

/-- C3: for every projected participant record, the `kda` field equals
`round((kills + assists) / max(deaths, 1), 2)` — the source's
`deaths if deaths > 0 else 1` agrees with `max(deaths, 1)` for the integer
death counts of the data model — and in particular
`kills=5, deaths=0, assists=3` yields `kda = 8.0` and
`kills=4, deaths=2, assists=6` yields `kda = 5.0`. -/
theorem kda_floor_rule :
    (∀ (k a : ℚ) (d : ℤ), kdaCalc k d a = round2 ((k + a) / max (d : ℚ) 1))
    ∧ kdaCalc 5 0 3 = 8 ∧ kdaCalc 4 2 6 = 5 := by
  refine ⟨?_, by with_unfolding_all rfl, by with_unfolding_all rfl⟩
  intro k a d
  unfold kdaCalc
  rcases le_or_lt d 0 with hd | hd
  · have h1 : ¬((d : ℚ) > 0) := by exact_mod_cast not_lt.mpr hd
    have h2 : max (d : ℚ) 1 = 1 :=
      max_eq_right ((by exact_mod_cast hd : (d : ℚ) ≤ 0).trans zero_le_one)
    simp [h1, h2]
  · have h1 : (d : ℚ) > 0 := by exact_mod_cast hd
    have h2 : max (d : ℚ) 1 = d := max_eq_left (by exact_mod_cast hd)
    simp [h1, h2]

/-- C7 counterexample: with `count = 1` but an upstream body holding two
match ids, `get_match_ids` returns both ids — the claimed bound
"length ≤ count regardless of what the upstream response contains" fails. -/
theorem get_match_ids_exceeds_count_cex :
    get_match_ids exUser ⟨200, "OK", .arr [.str "M1", .str "M2"]⟩ 0 1
      = .ok (.arr [.str "M1", .str "M2"])
    ∧ ¬([Json.str "M1", Json.str "M2"].length ≤ 1) :=
  ⟨rfl, by decide⟩

/-- C7 (amended): a successful `get_match_ids` call returns the upstream
response body verbatim (no truncation), so its length is at most `count`
exactly when the upstream response contains at most `count` identifiers. -/
theorem get_match_ids_passthrough (user : RiotUser) (resp : HttpResponse)
    (start count : Nat) (l : List Json)
    (hs : isSuccessStatus resp.status = true)
    (hb : resp.body = .arr l) (hlen : l.length ≤ count) :
    get_match_ids user resp start count = .ok (.arr l) ∧ l.length ≤ count := by
  unfold get_match_ids
  simp [hs, hb, hlen]

/-- Witness for C7 (amended) at a concrete response. -/
theorem get_match_ids_passthrough_witness :
    get_match_ids exUser ⟨200, "OK", .arr [.str "M1"]⟩ 0 20 = .ok (.arr [.str "M1"])
    ∧ [Json.str "M1"].length ≤ 20 :=
  get_match_ids_passthrough exUser ⟨200, "OK", .arr [.str "M1"]⟩ 0 20
    [.str "M1"] rfl rfl (by decide)

/-- C6: `RiotUser.create` fails on every 4xx/5xx status — no user is
produced, the diagnostic carrying the upstream status and reason is emitted,
and no retry happens (the factory consumes exactly one response) — and on a
2xx response whose body lacks a well-formed `"puuid"` field it fails with
the uncaught subscription error rather than producing a default user. -/
theorem create_error_handling :
    (∀ (name tag region : String) (resp : HttpResponse),
        400 ≤ resp.status → resp.status < 600 →
        (RiotUser.create name tag region resp).value = .ok none
        ∧ (RiotUser.create name tag region resp).log = [(resp.status, resp.reason)])
    ∧ (∀ (name tag region : String) (resp : HttpResponse) (e : PyErr),
        isSuccessStatus resp.status = true →
        resp.body.item "puuid" = .error e →
        (RiotUser.create name tag region resp).value = .error e) := by
  constructor
  · intro name tag region resp h4 h6
    have hs : isSuccessStatus resp.status = false := by
      simp only [isSuccessStatus, Bool.and_eq_false_iff, decide_eq_false_iff_not]
      omega
    unfold RiotUser.create
    rw [hs]
    exact ⟨rfl, rfl⟩
  · intro name tag region resp e hs hp
    unfold RiotUser.create
    rw [hs]
    simp [hp]

/-- Witness for C6 at a concrete 404 response and a concrete 200 response
whose body lacks the `"puuid"` key. -/
theorem create_error_handling_witness :
    ((RiotUser.create "Foo" "123" "europe" ⟨404, "Not Found", .null⟩).value = .ok none
      ∧ (RiotUser.create "Foo" "123" "europe" ⟨404, "Not Found", .null⟩).log
          = [(404, "Not Found")])
    ∧ (RiotUser.create "Foo" "123" "europe"
        ⟨200, "OK", .obj [("gameName", .str "Foo")]⟩).value
          = .error (.keyError "puuid") :=
  ⟨create_error_handling.1 "Foo" "123" "europe" ⟨404, "Not Found", .null⟩
      (by decide) (by decide),
   create_error_handling.2 "Foo" "123" "europe"
      ⟨200, "OK", .obj [("gameName", .str "Foo")]⟩ (.keyError "puuid") rfl rfl⟩

/-- A full participant record with the given puuid, as upstream delivers it. -/
def mkParticipant (puuid : String) : Json :=
  .obj [("puuid", .str puuid), ("deaths", .num 2), ("kills", .num 4),
        ("assists", .num 6), ("championName", .str "Ahri"), ("win", .bool true),
        ("challenges", .obj [("goldPerMinute", .num 400)]),
        ("totalDamageDealtToChampions", .num 15000), ("lane", .str "MIDDLE")]

/-- A raw match document with the given participants and match id. -/
def mkDoc (participants : List Json) (mid : String) : Json :=
  .obj [("metadata", .obj [("matchId", .str mid)]),
        ("info", .obj [("participants", .arr participants)])]

/-- Scanning a participant list in which every record has a `"puuid"`
differing from the target finds nobody and raises nothing. -/
theorem findPlayer_none (puuid : String) (ps : List Json)
    (h : ∀ p ∈ ps, ∃ v, p.item "puuid" = .ok v ∧ v.eqStr puuid = false) :
    findPlayer puuid ps = .ok none := by
  induction ps with
  | nil => rfl
  | cons p tl ih =>
    obtain ⟨v, hv, hne⟩ := h p (List.mem_cons_self p tl)
    simp only [findPlayer, hv, hne, Bool.false_eq_true, if_false]
    exact ih fun q hq => h q (List.mem_cons_of_mem p hq)

/-- A document whose per-document pass contributes nothing and raises
nothing can be removed from the projected batch without affecting the other
documents. -/
theorem parse_match_data_middle (puuid : String) (d : Json) (xs ys : List Json)
    (hd : parse_one_match puuid d = .ok none) :
    parse_match_data puuid (xs ++ d :: ys) = parse_match_data puuid (xs ++ ys) := by
  induction xs with
  | nil =>
    simp only [List.nil_append, parse_match_data, hd]
    cases parse_match_data puuid ys <;> rfl
  | cons x tl ih => simp [parse_match_data, ih]

/-- C5: a raw match document in which no participant's `puuid` equals the
target puuid contributes no output record and raises no error, and the
remaining documents of the batch are projected exactly as if the document
were absent. -/
theorem projection_drops_unmatched (target : String) (d : Json) (ps xs ys : List Json)
    (hps : docParticipants d = .ok ps)
    (hno : ∀ p ∈ ps, ∃ v, p.item "puuid" = .ok v ∧ v.eqStr target = false) :
    parse_one_match target d = .ok none
    ∧ parse_match_data target (xs ++ d :: ys) = parse_match_data target (xs ++ ys) := by
  have h1 : parse_one_match target d = .ok none := by
    simp [parse_one_match, hps, findPlayer_none target ps hno]
  exact ⟨h1, parse_match_data_middle target d xs ys h1⟩

/-- Witness for C5: a concrete two-participant document without the target. -/
theorem projection_drops_unmatched_witness :
    parse_one_match "P1" (mkDoc [mkParticipant "A", mkParticipant "B"] "M1") = .ok none
    ∧ parse_match_data "P1"
        ([mkDoc [mkParticipant "P1"] "M0"]
          ++ mkDoc [mkParticipant "A", mkParticipant "B"] "M1" :: [])
      = parse_match_data "P1" ([mkDoc [mkParticipant "P1"] "M0"] ++ []) :=
  projection_drops_unmatched "P1" (mkDoc [mkParticipant "A", mkParticipant "B"] "M1")
    [mkParticipant "A", mkParticipant "B"] [mkDoc [mkParticipant "P1"] "M0"] [] rfl
    (by
      intro p hp
      fin_cases hp
      · exact ⟨.str "A", rfl, rfl⟩
      · exact ⟨.str "B", rfl, rfl⟩)

/-- Unfolding `validResults` one input id at a time. -/
theorem validResults_cons (net : String → Except FetchErr Json) (i : String)
    (tl : List String) :
    validResults net (i :: tl)
      = match fetch_single_match net i with
        | some d => if d.truthy then d :: validResults net tl else validResults net tl
        | none => validResults net tl := by
  unfold validResults matchResults
  cases h : fetch_single_match net i with
  | none => simp [List.filter_cons, h, pyTruthyOpt]
  | some d =>
    by_cases ht : d.truthy
    · simp [List.filter_cons, h, pyTruthyOpt, ht]
    · simp [List.filter_cons, h, pyTruthyOpt, ht]

/-- Replacing a fetch outcome that succeeded with a falsy body by a
transport failure leaves the retained batch unchanged. -/
theorem validResults_swap_falsy (net : String → Except FetchErr Json)
    (ids : List String) (badId : String) (b : Json)
    (hok : net badId = .ok b) (hfalsy : b.truthy = false) :
    validResults (fun j => if j = badId then .error .transport else net j) ids
      = validResults net ids := by
  induction ids with
  | nil => rfl
  | cons i tl ih =>
    rw [validResults_cons, validResults_cons, ih]
    by_cases hi : i = badId
    · subst hi
      simp [fetch_single_match, hok, hfalsy]
    · simp [fetch_single_match, hi]

/-- C9: a per-match fetch that succeeds at the HTTP level with a falsy
parsed body (`{}`, `[]`, `null`, `0`, `""`) is excluded from the batch
exactly as if the fetch had failed: `get_match_data` computes the same
result when that id's outcome is replaced by a transport error, because the
line `[m for m in match_results if m]` keeps entries by truthiness, not by
distinguishing the `None` failure sentinel. -/
theorem falsy_body_filtered_as_failure (puuid : String)
    (net : String → Except FetchErr Json) (ids : List String)
    (badId : String) (b : Json)
    (hok : net badId = .ok b) (hfalsy : b.truthy = false) :
    get_match_data puuid net ids
      = get_match_data puuid (fun j => if j = badId then .error .transport else net j) ids
    ∧ Json.truthy (.obj []) = false ∧ Json.truthy (.arr []) = false
    ∧ Json.truthy .null = false ∧ Json.truthy (.num 0) = false
    ∧ Json.truthy (.str "") = false := by
  refine ⟨?_, rfl, rfl, rfl, by decide, rfl⟩
  unfold get_match_data
  rw [validResults_swap_falsy net ids badId b hok hfalsy]

/-- Witness for C9: one id fetched successfully with the empty-object body. -/
theorem falsy_body_filtered_as_failure_witness :
    get_match_data "P1" (fun _ => .ok (.obj [])) ["M1"]
      = get_match_data "P1"
          (fun j => if j = "M1" then .error .transport else .ok (.obj [])) ["M1"]
    ∧ Json.truthy (.obj []) = false ∧ Json.truthy (.arr []) = false
    ∧ Json.truthy .null = false ∧ Json.truthy (.num 0) = false
    ∧ Json.truthy (.str "") = false :=
  falsy_body_filtered_as_failure "P1" (fun _ => .ok (.obj [])) ["M1"] "M1" (.obj [])
    rfl rfl

/-- The retained batch distributes over concatenation of the input ids. -/
theorem validResults_append (net : String → Except FetchErr Json)
    (xs ys : List String) :
    validResults net (xs ++ ys) = validResults net xs ++ validResults net ys := by
  unfold validResults matchResults
  simp [List.filter_append, List.filterMap_append]

/-- A match id whose fetch fails contributes nothing to the retained batch. -/
theorem validResults_failing (net : String → Except FetchErr Json)
    (badId : String) (e : FetchErr) (h : net badId = .error e) :
    validResults net [badId] = [] := by
  simp [validResults, matchResults, fetch_single_match, h, pyTruthyOpt]

/-- A match id whose fetch succeeds with a truthy body contributes exactly
its body to the retained batch. -/
theorem validResults_success (net : String → Except FetchErr Json)
    (goodId : String) (d : Json) (h : net goodId = .ok d)
    (ht : d.truthy = true) :
    validResults net [goodId] = [d] := by
  simp [validResults, matchResults, fetch_single_match, h, pyTruthyOpt, ht]

/-- Projection emits at most one record per document. -/
theorem parse_match_data_length (puuid : String) (docs : List Json)
    (rows : List Row) (h : parse_match_data puuid docs = .ok rows) :
    rows.length ≤ docs.length := by
  induction docs generalizing rows with
  | nil =>
    simp only [parse_match_data] at h
    cases h
    simp
  | cons d ds ih =>
    simp only [parse_match_data] at h
    cases h1 : parse_one_match puuid d with
    | error e => rw [h1] at h; cases h
    | ok r? =>
      rw [h1] at h
      cases h2 : parse_match_data puuid ds with
      | error e => rw [h2] at h; cases h
      | ok rest =>
        rw [h2] at h
        have hle := ih rest h2
        cases r? with
        | some r => cases h; simp; omega
        | none => cases h; simp; omega

/-- The retained batch is never longer than the input id list. -/
theorem validResults_length (net : String → Except FetchErr Json)
    (ids : List String) :
    (validResults net ids).length ≤ ids.length := by
  unfold validResults matchResults
  calc (((ids.map (fetch_single_match net)).filter pyTruthyOpt).filterMap id).length
      ≤ ((ids.map (fetch_single_match net)).filter pyTruthyOpt).length :=
        List.length_filterMap_le _ _
    _ ≤ (ids.map (fetch_single_match net)).length := List.length_filter_le _ _
    _ = ids.length := List.length_map _ _

/-- The network oracle for the C1 counterexample: `"M2"` succeeds with the
falsy empty-object body, everything else fails with a transport error. -/
def cexNet : String → Except FetchErr Json :=
  fun j => if j = "M2" then .ok (.obj []) else .error .transport

/-- C1 counterexample: with `"M1"` failing and `"M2"` succeeding (its body
the well-formed but falsy `{}`), `get_match_data` raises nothing yet returns
zero records — the non-failing match `"M2"` is not returned, refuting "the
non-failing matches are all returned". -/
theorem get_match_data_nonfailing_dropped_cex :
    cexNet "M2" = .ok (.obj [])
    ∧ cexNet "M1" = .error .transport
    ∧ get_match_data "P1" cexNet ["M1", "M2"] = .ok []
    ∧ validResults cexNet ["M1", "M2"] = [] :=
  ⟨rfl, rfl, rfl, rfl⟩

/-- C1 (amended): `get_match_data` raises no error on account of per-match
fetch failures — a failing match is caught inside its own task and dropped
without affecting the processing of its siblings, a non-failing match whose
body is truthy is retained (in order) into the batch handed to projection,
and a batch that projects successfully yields at most one record per input
match id. -/
theorem get_match_data_failure_isolation (puuid : String)
    (net : String → Except FetchErr Json) (ids xs ys : List String)
    (badId goodId : String) (e : FetchErr) (d : Json)
    (hbad : net badId = .error e)
    (hgood : net goodId = .ok d) (htruthy : d.truthy = true) :
    get_match_data puuid net (xs ++ badId :: ys) = get_match_data puuid net (xs ++ ys)
    ∧ validResults net (xs ++ goodId :: ys)
        = validResults net xs ++ d :: validResults net ys
    ∧ (∀ rows, get_match_data puuid net ids = .ok rows → rows.length ≤ ids.length) := by
  refine ⟨?_, ?_, ?_⟩
  · unfold get_match_data
    rw [show xs ++ badId :: ys = xs ++ [badId] ++ ys by simp, validResults_append,
        validResults_append, validResults_failing net badId e hbad,
        validResults_append]
    simp
  · rw [show xs ++ goodId :: ys = xs ++ [goodId] ++ ys by simp, validResults_append,
        validResults_append, validResults_success net goodId d hgood htruthy]
    simp
  · intro rows h
    exact (parse_match_data_length puuid _ rows h).trans (validResults_length net ids)

/-- The network oracle for the C1 witness: `"M1"` fails with a transport
error, every other id succeeds with a full truthy document. -/
def wNet : String → Except FetchErr Json :=
  fun j => if j = "M1" then .error .transport else .ok (mkDoc [mkParticipant "P1"] "M2")

/-- Witness for C1 (amended) at a concrete oracle: `"M1"` fails with a
transport error, `"M2"` succeeds with a full truthy document. -/
theorem get_match_data_failure_isolation_witness :
    get_match_data "P1" wNet (["M0"] ++ "M1" :: []) = get_match_data "P1" wNet (["M0"] ++ [])
    ∧ validResults wNet (["M0"] ++ "M2" :: [])
        = validResults wNet ["M0"] ++ mkDoc [mkParticipant "P1"] "M2" :: validResults wNet []
    ∧ (∀ rows, get_match_data "P1" wNet ["M1", "M2"] = .ok rows →
        rows.length ≤ (["M1", "M2"] : List String).length) :=
  get_match_data_failure_isolation "P1" wNet ["M1", "M2"] ["M0"] [] "M1" "M2"
    .transport (mkDoc [mkParticipant "P1"] "M2") rfl rfl rfl

/-- The record (if any) that input match id `id` contributes to the output:
its fetched body, when truthy, projected through the per-document pass. -/
def recordFor (puuid : String) (net : String → Except FetchErr Json)
    (id : String) : Option Row :=
  match fetch_single_match net id with
  | none => none
  | some d =>
    if d.truthy then
      match parse_one_match puuid d with
      | .ok r? => r?
      | .error _ => none
    else none

/-- When the whole batch projects successfully, the output is exactly the
per-id contributions in input order. -/
theorem get_match_data_rows_eq (puuid : String)
    (net : String → Except FetchErr Json) (ids : List String) (rows : List Row)
    (h : get_match_data puuid net ids = .ok rows) :
    rows = ids.filterMap (recordFor puuid net) := by
  induction ids generalizing rows with
  | nil =>
    unfold get_match_data at h
    simp only [validResults, matchResults, List.map_nil, List.filter_nil,
      List.filterMap_nil, parse_match_data] at h
    cases h
    rfl
  | cons i tl ih =>
    unfold get_match_data at h
    rw [validResults_cons] at h
    cases hf : fetch_single_match net i with
    | none =>
      simp only [hf] at h
      simp only [List.filterMap_cons, recordFor, hf]
      exact ih rows h
    | some d =>
      simp only [hf] at h
      by_cases ht : d.truthy
      · rw [if_pos ht] at h
        simp only [parse_match_data] at h
        cases h1 : parse_one_match puuid d with
        | error e => rw [h1] at h; cases h
        | ok r? =>
          rw [h1] at h
          cases h2 : parse_match_data puuid (validResults net tl) with
          | error e => rw [h2] at h; cases h
          | ok rest =>
            rw [h2] at h
            have hrest : rest = tl.filterMap (recordFor puuid net) :=
              ih rest (by unfold get_match_data; exact h2)
            simp only [List.filterMap_cons, recordFor, hf, if_pos ht, h1]
            cases r? with
            | some r => cases h; rw [hrest]
            | none => cases h; exact hrest
      · rw [if_neg ht] at h
        simp only [List.filterMap_cons, recordFor, hf, if_neg ht]
        exact ih rows h

/-- The match ids of the per-id contributions form a subsequence of the
input ids, provided each contributed record carries its own match id. -/
theorem recordFor_sublist (puuid : String)
    (net : String → Except FetchErr Json) (ids : List String)
    (hid : ∀ i ∈ ids, ∀ r, recordFor puuid net i = some r → r.match_id = .str i) :
    ((ids.filterMap (recordFor puuid net)).map Row.match_id).Sublist
      (ids.map Json.str) := by
  induction ids with
  | nil => simp
  | cons i tl ih =>
    have ihtl := ih fun j hj r hr => hid j (List.mem_cons_of_mem i hj) r hr
    cases h : recordFor puuid net i with
    | none =>
      simp only [List.filterMap_cons, h, List.map_cons]
      exact ihtl.cons (Json.str i)
    | some r =>
      simp only [List.filterMap_cons, h, List.map_cons,
        hid i (List.mem_cons_self i tl) r h]
      exact ihtl.cons₂ (Json.str i)

/-- C8: when `get_match_data` succeeds, its records are the per-id
contributions collected in submission order (`asyncio.gather` preserves the
order of the task list, the truthiness filter preserves it, and the
projection loop walks the batch front to back), so the output order is a
subsequence of the input match-id order — for bodies that carry their own
match id, the sequence of output `match_id`s is a sublist of the input ids. -/
theorem get_match_data_preserves_input_order (puuid : String)
    (net : String → Except FetchErr Json) (ids : List String) (rows : List Row)
    (h : get_match_data puuid net ids = .ok rows)
    (hid : ∀ i ∈ ids, ∀ r, recordFor puuid net i = some r → r.match_id = .str i) :
    rows = ids.filterMap (recordFor puuid net)
    ∧ (rows.map Row.match_id).Sublist (ids.map Json.str) := by
  have h1 := get_match_data_rows_eq puuid net ids rows h
  subst h1
  exact ⟨rfl, recordFor_sublist puuid net ids hid⟩

/-- The network oracle for the C8 witness: `"M2"` fails, the other ids
succeed with documents carrying their own match id. -/
def wNet8 : String → Except FetchErr Json :=
  fun j => if j = "M2" then .error .transport else .ok (mkDoc [mkParticipant "P1"] j)

/-- The record that `wNet8` contributes for a fetched match id. -/
def wRow (mid : String) : Row :=
  { match_id := .str mid, champion := .str "Ahri", win := .bool true,
    kills := .num 4, deaths := .num 2, assists := .num 6,
    kda := kdaCalc 4 2 6, gold_per_min := .num 400,
    damage := .num 15000, lane := .str "MIDDLE" }

/-- Witness for C8: three ids with the middle fetch failing. -/
theorem get_match_data_preserves_input_order_witness :
    [wRow "M1", wRow "M3"] = ["M1", "M2", "M3"].filterMap (recordFor "P1" wNet8)
    ∧ (([wRow "M1", wRow "M3"]).map Row.match_id).Sublist
        (["M1", "M2", "M3"].map Json.str) :=
  get_match_data_preserves_input_order "P1" wNet8 ["M1", "M2", "M3"]
    [wRow "M1", wRow "M3"] rfl
    (by
      intro i hi r hr
      fin_cases hi
      · rw [show recordFor "P1" wNet8 "M1" = some (wRow "M1") from rfl] at hr
        cases hr
        rfl
      · rw [show recordFor "P1" wNet8 "M2" = none from rfl] at hr
        cases hr
      · rw [show recordFor "P1" wNet8 "M3" = some (wRow "M3") from rfl] at hr
        cases hr
        rfl)

/-- Evaluation of the record-building block when every accessed field is
present: the resulting record field by field, with `gold_per_min` the
`goldPerMinute` entry of the challenge bag when present and `0` otherwise. -/
theorem buildRow_eq (data player metadata mid championJ winJ damageJ laneJ : Json)
    (chFields : List (String × Json)) (deathsQ killsQ assistsQ : ℚ)
    (hdeaths : player.item "deaths" = .ok (.num deathsQ))
    (hkills : player.item "kills" = .ok (.num killsQ))
    (hassists : player.item "assists" = .ok (.num assistsQ))
    (hmeta : data.item "metadata" = .ok metadata)
    (hmid : metadata.item "matchId" = .ok mid)
    (hchamp : player.item "championName" = .ok championJ)
    (hwin : player.item "win" = .ok winJ)
    (hch : player.item "challenges" = .ok (.obj chFields))
    (hdmg : player.item "totalDamageDealtToChampions" = .ok damageJ)
    (hlane : player.item "lane" = .ok laneJ) :
    buildRow data player = .ok
      { match_id := mid, champion := championJ, win := winJ,
        kills := .num killsQ, deaths := .num deathsQ, assists := .num assistsQ,
        kda := kdaCalc killsQ deathsQ assistsQ,
        gold_per_min := (chFields.lookup "goldPerMinute").getD (.num 0),
        damage := damageJ, lane := laneJ } := by
  unfold buildRow
  simp only [hdeaths, hkills, hassists, hmeta, hmid, hchamp, hwin, hch, hdmg, hlane,
    Json.asNum, Json.get]

/-- The record-building block propagates a failure of the challenge-bag
subscription `player["challenges"]` once the fields evaluated before it are
fine. -/
theorem buildRow_challenges_error (data player metadata mid championJ winJ : Json)
    (deathsQ killsQ assistsQ : ℚ) (e : PyErr)
    (hdeaths : player.item "deaths" = .ok (.num deathsQ))
    (hkills : player.item "kills" = .ok (.num killsQ))
    (hassists : player.item "assists" = .ok (.num assistsQ))
    (hmeta : data.item "metadata" = .ok metadata)
    (hmid : metadata.item "matchId" = .ok mid)
    (hchamp : player.item "championName" = .ok championJ)
    (hwin : player.item "win" = .ok winJ)
    (hch : player.item "challenges" = .error e) :
    buildRow data player = .error e := by
  unfold buildRow
  simp only [hdeaths, hkills, hassists, hmeta, hmid, hchamp, hwin, hch, Json.asNum]

/-- When the participant is located and the record builds, the per-document
pass returns the record. -/
theorem parse_one_match_found_ok (target : String) (data player : Json)
    (ps : List Json) (r : Row)
    (hps : docParticipants data = .ok ps)
    (hfind : findPlayer target ps = .ok (some player))
    (hrow : buildRow data player = .ok r) :
    parse_one_match target data = .ok (some r) := by
  simp [parse_one_match, hps, hfind, hrow]

/-- When the participant is located and the record-building block raises,
the per-document pass propagates the exception. -/
theorem parse_one_match_found_error (target : String) (data player : Json)
    (ps : List Json) (e : PyErr)
    (hps : docParticipants data = .ok ps)
    (hfind : findPlayer target ps = .ok (some player))
    (hrow : buildRow data player = .error e) :
    parse_one_match target data = .error e := by
  simp [parse_one_match, hps, hfind, hrow]

/-- A full participant record for the target except that its challenge bag
lacks the `goldPerMinute` field. -/
def participantNoGold : Json :=
  .obj [("puuid", .str "P1"), ("deaths", .num 2), ("kills", .num 4),
        ("assists", .num 6), ("championName", .str "Ahri"), ("win", .bool true),
        ("challenges", .obj [("visionScore", .num 20)]),
        ("totalDamageDealtToChampions", .num 15000), ("lane", .str "MIDDLE")]

/-- A full participant record for the target except that the `"challenges"`
key itself is absent. -/
def participantNoChallenges : Json :=
  .obj [("puuid", .str "P1"), ("deaths", .num 2), ("kills", .num 4),
        ("assists", .num 6), ("championName", .str "Ahri"), ("win", .bool true),
        ("totalDamageDealtToChampions", .num 15000), ("lane", .str "MIDDLE")]

/-- C4 counterexample: when the challenge-metrics bag itself is absent from
the matched participant, the projection does not default `gold_per_min` to 0
— it raises `KeyError("challenges")`, because only the `goldPerMinute` field
is read defensively (`player["challenges"].get("goldPerMinute", 0)`). -/
theorem gold_per_min_missing_bag_cex :
    parse_one_match "P1" (mkDoc [participantNoChallenges] "M1")
      = .error (.keyError "challenges")
    ∧ parse_match_data "P1" [mkDoc [participantNoChallenges] "M1"]
      = .error (.keyError "challenges") :=
  ⟨rfl, rfl⟩

/-- C4 (amended): for a matched participant whose challenge bag is present,
`gold_per_min` is the bag's `goldPerMinute` value when present and `0` when
that field is absent, with no failure in either case; but when the
`"challenges"` bag itself is absent the projection raises
`KeyError("challenges")` rather than defaulting. -/
theorem gold_per_min_default :
    (∀ (target : String) (data player metadata mid championJ winJ damageJ laneJ : Json)
       (ps : List Json) (chFields : List (String × Json)) (dQ kQ aQ : ℚ),
       docParticipants data = .ok ps →
       findPlayer target ps = .ok (some player) →
       player.item "deaths" = .ok (.num dQ) →
       player.item "kills" = .ok (.num kQ) →
       player.item "assists" = .ok (.num aQ) →
       data.item "metadata" = .ok metadata →
       metadata.item "matchId" = .ok mid →
       player.item "championName" = .ok championJ →
       player.item "win" = .ok winJ →
       player.item "challenges" = .ok (.obj chFields) →
       player.item "totalDamageDealtToChampions" = .ok damageJ →
       player.item "lane" = .ok laneJ →
       (chFields.lookup "goldPerMinute" = none →
         parse_one_match target data = .ok (some
           { match_id := mid, champion := championJ, win := winJ,
             kills := .num kQ, deaths := .num dQ, assists := .num aQ,
             kda := kdaCalc kQ dQ aQ, gold_per_min := .num 0,
             damage := damageJ, lane := laneJ }))
       ∧ (∀ v, chFields.lookup "goldPerMinute" = some v →
           parse_one_match target data = .ok (some
             { match_id := mid, champion := championJ, win := winJ,
               kills := .num kQ, deaths := .num dQ, assists := .num aQ,
               kda := kdaCalc kQ dQ aQ, gold_per_min := v,
               damage := damageJ, lane := laneJ })))
    ∧ (∀ (target : String) (data player metadata mid championJ winJ : Json)
         (ps : List Json) (dQ kQ aQ : ℚ),
       docParticipants data = .ok ps →
       findPlayer target ps = .ok (some player) →
       player.item "deaths" = .ok (.num dQ) →
       player.item "kills" = .ok (.num kQ) →
       player.item "assists" = .ok (.num aQ) →
       data.item "metadata" = .ok metadata →
       metadata.item "matchId" = .ok mid →
       player.item "championName" = .ok championJ →
       player.item "win" = .ok winJ →
       player.item "challenges" = .error (.keyError "challenges") →
       parse_one_match target data = .error (.keyError "challenges")) := by
  constructor
  · intro target data player metadata mid championJ winJ damageJ laneJ ps chFields
      dQ kQ aQ hps hfind hdeaths hkills hassists hmeta hmid hchamp hwin hch hdmg hlane
    have hrow := buildRow_eq data player metadata mid championJ winJ damageJ laneJ
      chFields dQ kQ aQ hdeaths hkills hassists hmeta hmid hchamp hwin hch hdmg hlane
    constructor
    · intro hnone
      rw [hnone, Option.getD_none] at hrow
      exact parse_one_match_found_ok target data player ps _ hps hfind hrow
    · intro v hsome
      rw [hsome, Option.getD_some] at hrow
      exact parse_one_match_found_ok target data player ps _ hps hfind hrow
  · intro target data player metadata mid championJ winJ ps dQ kQ aQ
      hps hfind hdeaths hkills hassists hmeta hmid hchamp hwin hch
    have hrow := buildRow_challenges_error data player metadata mid championJ winJ
      dQ kQ aQ (.keyError "challenges") hdeaths hkills hassists hmeta hmid hchamp
      hwin hch
    exact parse_one_match_found_error target data player ps _ hps hfind hrow

/-- Witness for C4 (amended): a matched participant whose challenge bag
lacks `goldPerMinute` projects with `gold_per_min = 0`, a matched
participant without the bag raises `KeyError("challenges")`. -/
theorem gold_per_min_default_witness :
    parse_one_match "P1" (mkDoc [participantNoGold] "M1") = .ok (some
      { match_id := .str "M1", champion := .str "Ahri", win := .bool true,
        kills := .num 4, deaths := .num 2, assists := .num 6,
        kda := kdaCalc 4 2 6, gold_per_min := .num 0,
        damage := .num 15000, lane := .str "MIDDLE" })
    ∧ parse_one_match "P1" (mkDoc [participantNoChallenges] "M1")
        = .error (.keyError "challenges") :=
  ⟨((gold_per_min_default.1 "P1" (mkDoc [participantNoGold] "M1") participantNoGold
      (.obj [("matchId", .str "M1")]) (.str "M1") (.str "Ahri") (.bool true)
      (.num 15000) (.str "MIDDLE") [participantNoGold]
      [("visionScore", .num 20)] 2 4 6 rfl rfl rfl rfl rfl rfl rfl rfl rfl
      rfl rfl rfl).1 rfl),
   (gold_per_min_default.2 "P1" (mkDoc [participantNoChallenges] "M1")
      participantNoChallenges (.obj [("matchId", .str "M1")]) (.str "M1")
      (.str "Ahri") (.bool true) [participantNoChallenges] 2 4 6
      rfl rfl rfl rfl rfl rfl rfl rfl rfl rfl)⟩

/-- The participant scan raises `KeyError("puuid")` when a record lacking
`"puuid"` is reached before any record matches the target. -/
theorem findPlayer_keyError_prefix (target : String) (xs : List Json) (p : Json)
    (ys : List Json)
    (hxs : ∀ q ∈ xs, ∃ v, q.item "puuid" = .ok v ∧ v.eqStr target = false)
    (hp : p.item "puuid" = .error (.keyError "puuid")) :
    findPlayer target (xs ++ p :: ys) = .error (.keyError "puuid") := by
  induction xs with
  | nil => simp [findPlayer, hp]
  | cons q tl ih =>
    obtain ⟨v, hv, hne⟩ := hxs q (List.mem_cons_self q tl)
    simp only [List.cons_append, findPlayer, hv, hne, Bool.false_eq_true, if_false]
    exact ih fun z hz => hxs z (List.mem_cons_of_mem q hz)

/-- A successfully built record presupposes that every field subscription in
the record-building block succeeded. -/
theorem buildRow_ok_requires (data player : Json) (r : Row)
    (h : buildRow data player = .ok r) :
    (player.item "deaths").isOk = true ∧ (player.item "kills").isOk = true
    ∧ (player.item "assists").isOk = true
    ∧ (∃ md, data.item "metadata" = .ok md ∧ (md.item "matchId").isOk = true)
    ∧ (player.item "championName").isOk = true
    ∧ (player.item "win").isOk = true
    ∧ (player.item "challenges").isOk = true
    ∧ (player.item "totalDamageDealtToChampions").isOk = true
    ∧ (player.item "lane").isOk = true := by
  unfold buildRow at h
  cases h1 : player.item "deaths" with
  | error e => simp only [h1] at h; exact Except.noConfusion h
  | ok deathsJ =>
  simp only [h1] at h
  cases h2 : deathsJ.asNum with
  | error e => simp only [h2] at h; exact Except.noConfusion h
  | ok deathsQ =>
  simp only [h2] at h
  cases h3 : player.item "kills" with
  | error e => simp only [h3] at h; exact Except.noConfusion h
  | ok killsJ =>
  simp only [h3] at h
  cases h4 : killsJ.asNum with
  | error e => simp only [h4] at h; exact Except.noConfusion h
  | ok killsQ =>
  simp only [h4] at h
  cases h5 : player.item "assists" with
  | error e => simp only [h5] at h; exact Except.noConfusion h
  | ok assistsJ =>
  simp only [h5] at h
  cases h6 : assistsJ.asNum with
  | error e => simp only [h6] at h; exact Except.noConfusion h
  | ok assistsQ =>
  simp only [h6] at h
  cases h7 : data.item "metadata" with
  | error e => simp only [h7] at h; exact Except.noConfusion h
  | ok metadata =>
  simp only [h7] at h
  cases h8 : metadata.item "matchId" with
  | error e => simp only [h8] at h; exact Except.noConfusion h
  | ok matchIdJ =>
  simp only [h8] at h
  cases h9 : player.item "championName" with
  | error e => simp only [h9] at h; exact Except.noConfusion h
  | ok championJ =>
  simp only [h9] at h
  cases h10 : player.item "win" with
  | error e => simp only [h10] at h; exact Except.noConfusion h
  | ok winJ =>
  simp only [h10] at h
  cases h11 : player.item "challenges" with
  | error e => simp only [h11] at h; exact Except.noConfusion h
  | ok challenges =>
  simp only [h11] at h
  cases h12 : challenges.get "goldPerMinute" (.num 0) with
  | error e => simp only [h12] at h; exact Except.noConfusion h
  | ok goldJ =>
  simp only [h12] at h
  cases h13 : player.item "totalDamageDealtToChampions" with
  | error e => simp only [h13] at h; exact Except.noConfusion h
  | ok damageJ =>
  simp only [h13] at h
  cases h14 : player.item "lane" with
  | error e => simp only [h14] at h; exact Except.noConfusion h
  | ok laneJ =>
  exact ⟨rfl, rfl, rfl, ⟨metadata, rfl, by rw [h8]; rfl⟩, rfl, rfl, rfl, rfl, rfl⟩

/-- The full field list of a well-formed target participant. -/
def fullParticipantFields : List (String × Json) :=
  [("puuid", .str "P1"), ("deaths", .num 2), ("kills", .num 4),
   ("assists", .num 6), ("championName", .str "Ahri"), ("win", .bool true),
   ("challenges", .obj [("goldPerMinute", .num 400)]),
   ("totalDamageDealtToChampions", .num 15000), ("lane", .str "MIDDLE")]

/-- A target participant with one named field removed. -/
def participantOmit (k : String) : Json :=
  .obj (fullParticipantFields.filter (fun kv => !(kv.1 == k)))

/-- A document holding the matched target but no `"metadata"` key. -/
def docNoMetadata : Json :=
  .obj [("info", .obj [("participants", .arr [mkParticipant "P1"])])]

/-- A document holding the matched target whose metadata lacks `"matchId"`. -/
def docNoMatchId : Json :=
  .obj [("metadata", .obj [("gameVersion", .str "14.1")]),
        ("info", .obj [("participants", .arr [mkParticipant "P1"])])]

/-- C10 counterexample: a document whose first participant matches the
target and whose second participant lacks `"puuid"` projects successfully —
the scan stops at the first match, so a defective participant after the
match does not raise `KeyError`, refuting "raises a KeyError if any
participant record in any document lacks the 'puuid' key". -/
theorem parse_missing_puuid_after_match_cex :
    (Json.obj []).item "puuid" = .error (.keyError "puuid")
    ∧ (parse_match_data "P1" [mkDoc [mkParticipant "P1", .obj []] "M1"]).isOk = true :=
  ⟨rfl, rfl⟩

/-- C10 (amended): the projection raises `KeyError("puuid")` exactly when a
participant lacking `"puuid"` is scanned before a match is found (records
after the first match are never examined); a record is produced only if
every required subscription on the matched participant and the document's
`metadata`/`matchId` succeeded, and each such missing key raises its
`KeyError`; only the absence of the `info` block, the `participants` list,
or the `goldPerMinute` field is tolerated. -/
theorem parse_key_requirements :
    (∀ (target : String) (data p : Json) (xs ys : List Json),
       docParticipants data = .ok (xs ++ p :: ys) →
       (∀ q ∈ xs, ∃ v, q.item "puuid" = .ok v ∧ v.eqStr target = false) →
       p.item "puuid" = .error (.keyError "puuid") →
       parse_one_match target data = .error (.keyError "puuid"))
    ∧ (∀ (target : String) (data player : Json) (ps : List Json) (r : Row),
       docParticipants data = .ok ps →
       findPlayer target ps = .ok (some player) →
       parse_one_match target data = .ok (some r) →
       ((player.item "deaths").isOk = true ∧ (player.item "kills").isOk = true
        ∧ (player.item "assists").isOk = true
        ∧ (∃ md, data.item "metadata" = .ok md ∧ (md.item "matchId").isOk = true)
        ∧ (player.item "championName").isOk = true
        ∧ (player.item "win").isOk = true
        ∧ (player.item "challenges").isOk = true
        ∧ (player.item "totalDamageDealtToChampions").isOk = true
        ∧ (player.item "lane").isOk = true))
    ∧ (∀ k ∈ ["deaths", "kills", "assists", "championName", "win", "challenges",
              "totalDamageDealtToChampions", "lane"],
        parse_one_match "P1" (mkDoc [participantOmit k] "M1")
          = .error (.keyError k))
    ∧ parse_one_match "P1" docNoMetadata = .error (.keyError "metadata")
    ∧ parse_one_match "P1" docNoMatchId = .error (.keyError "matchId")
    ∧ (∀ (target : String) (fields : List (String × Json)),
        fields.lookup "info" = none →
        parse_one_match target (.obj fields) = .ok none)
    ∧ (∀ (target : String) (fields ifields : List (String × Json)),
        fields.lookup "info" = some (.obj ifields) →
        ifields.lookup "participants" = none →
        parse_one_match target (.obj fields) = .ok none)
    ∧ parse_one_match "P1" (mkDoc [participantNoGold] "M1") = .ok (some
        { match_id := .str "M1", champion := .str "Ahri", win := .bool true,
          kills := .num 4, deaths := .num 2, assists := .num 6,
          kda := kdaCalc 4 2 6, gold_per_min := .num 0,
          damage := .num 15000, lane := .str "MIDDLE" }) := by
  refine ⟨?_, ?_, ?_, rfl, rfl, ?_, ?_, rfl⟩
  · intro target data p xs ys hps hxs hp
    have hfind := findPlayer_keyError_prefix target xs p ys hxs hp
    simp [parse_one_match, hps, hfind]
  · intro target data player ps r hps hfind h
    simp only [parse_one_match, hps, hfind] at h
    cases hb : buildRow data player with
    | error e => simp only [hb] at h; exact Except.noConfusion h
    | ok r0 => exact buildRow_ok_requires data player r0 hb
  · intro k hk
    fin_cases hk <;> rfl
  · intro target fields hnone
    simp [parse_one_match, docParticipants, Json.get, hnone, Json.asArr,
      findPlayer, Bind.bind, Except.bind]
  · intro target fields ifields h1 h2
    simp [parse_one_match, docParticipants, Json.get, h1, h2, Json.asArr,
      findPlayer, Bind.bind, Except.bind]

/-- Witness for C10 (amended): a document whose first participant lacks
`"puuid"` while the matching record comes second raises `KeyError("puuid")`. -/
theorem parse_key_requirements_witness :
    parse_one_match "P1" (mkDoc [Json.obj [], mkParticipant "P1"] "M1")
      = .error (.keyError "puuid") :=
  parse_key_requirements.1 "P1" (mkDoc [.obj [], mkParticipant "P1"] "M1")
    (.obj []) [] [mkParticipant "P1"] rfl
    (fun q hq => absurd hq (List.not_mem_nil q)) rfl

/-- Admitting a pending task raises the in-flight count by exactly one. -/
theorem inFlightCount_set_inFlight (ps : List TaskPhase) (i : Nat)
    (h : ps.get? i = some .pending) :
    inFlightCount (ps.set i .inFlight) = inFlightCount ps + 1 := by
  induction ps generalizing i with
  | nil => simp at h
  | cons p tl ih =>
    cases i with
    | zero =>
      simp only [List.get?_cons_zero, Option.some.injEq] at h
      subst h
      simp [inFlightCount]
    | succ n =>
      simp only [List.get?_cons_succ] at h
      cases p <;> simp [inFlightCount, List.set, ih n h]

/-- Finishing a task never raises the in-flight count. -/
theorem inFlightCount_set_finished (ps : List TaskPhase) (i : Nat) :
    inFlightCount (ps.set i .finished) ≤ inFlightCount ps := by
  induction ps generalizing i with
  | nil => simp [inFlightCount]
  | cons p tl ih =>
    cases i with
    | zero => cases p <;> simp [inFlightCount, List.set]
    | succ n => cases p <;> simp [inFlightCount, List.set] <;> exact ih n

/-- Before any task starts, nothing is in flight. -/
theorem inFlightCount_replicate (n : Nat) :
    inFlightCount (List.replicate n .pending) = 0 := by
  induction n with
  | zero => rfl
  | succ m ih => simp [List.replicate, inFlightCount, ih]

/-- One fan-out step preserves the semaphore bound and the barrier
property. -/
theorem gatherStep_preserves (cap : Nat) (s t : GatherState)
    (hstep : GatherStep cap s t)
    (h1 : inFlightCount s.phases ≤ cap)
    (h2 : s.returned = true → ∀ p ∈ s.phases, p = TaskPhase.finished) :
    inFlightCount t.phases ≤ cap
    ∧ (t.returned = true → ∀ p ∈ t.phases, p = TaskPhase.finished) := by
  cases hstep with
  | acquire i hi hcap hret =>
    refine ⟨?_, fun hret2 => absurd hret2 (by simp)⟩
    rw [show ((⟨s.phases.set i TaskPhase.inFlight, false⟩ : GatherState)).phases
        = s.phases.set i .inFlight from rfl,
      inFlightCount_set_inFlight s.phases i hi]
    omega
  | complete i hi hret =>
    refine ⟨?_, fun hret2 => absurd hret2 (by simp)⟩
    exact le_trans (inFlightCount_set_finished s.phases i) h1
  | ret hall hret =>
    exact ⟨h1, fun _ => hall⟩

/-- C2: in the small-step semantics of the fan-out of `get_match_data`
(`asyncio.Semaphore(10)` admission plus `asyncio.gather` fan-in), every
state reachable from the initial state of any batch keeps at most 10
requests in flight — the counting gate is acquired before each request and
released when the request completes or its error is caught — and `gather`
returns only once every scheduled task has finished, so no partial results
are emitted before the whole batch is done. -/
theorem gather_semaphore_invariant (n : Nat) (s : GatherState)
    (h : GatherReachable semaphoreCapacity n s) :
    inFlightCount s.phases ≤ 10
    ∧ (s.returned = true → ∀ p ∈ s.phases, p = TaskPhase.finished) := by
  unfold GatherReachable at h
  induction h with
  | refl =>
    refine ⟨?_, ?_⟩
    · rw [show (initState n).phases = List.replicate n .pending from rfl,
        inFlightCount_replicate]
      omega
    · intro hret
      exact absurd hret (by simp [initState])
  | tail hsteps hstep ih =>
    exact gatherStep_preserves semaphoreCapacity _ _ hstep ih.1 ih.2

/-- Witness for C2: after one admission step on a two-match batch, one
request is in flight and `gather` has not returned. -/
theorem gather_semaphore_invariant_witness :
    inFlightCount (GatherState.mk [TaskPhase.inFlight, TaskPhase.pending] false).phases ≤ 10
    ∧ ((GatherState.mk [TaskPhase.inFlight, TaskPhase.pending] false).returned = true →
        ∀ p ∈ (GatherState.mk [TaskPhase.inFlight, TaskPhase.pending] false).phases,
          p = TaskPhase.finished) :=
  gather_semaphore_invariant 2 ⟨[.inFlight, .pending], false⟩
    (Relation.ReflTransGen.single
      (GatherStep.acquire (initState 2) 0 rfl (by decide) rfl))
